import Mathlib

/-!
Verification of the aggregation pipeline of `analise_constituinte.py`.

The script loads a semicolon-delimited CSV into a pandas DataFrame and runs
five passes over it: a preliminary profiler (missing-value statistics), a
demographic aggregator, a geographic aggregator, a temporal aggregator and a
content aggregator, followed by a final summary.  This file gives a shallow
embedding of that pipeline: the DataFrame becomes a list of records with
optional fields, `Series.value_counts` becomes an explicit count-then-sort
function, `pd.to_datetime(..., dayfirst=True, errors="coerce")` becomes an
explicit day-first parser producing `Option`, and each analysis function is
modelled as a state transformer returning both the (possibly mutated)
DataFrame and the values it computes.
-/

/-- First-occurrence list of the distinct values of `xs`, in the order in
which they first appear.  This models the key order of the hash table
underlying `pandas.Series.value_counts` before sorting. -/
def uniquesInOrder [BEq α] : List α → List α
  | [] => []
  | x :: xs => x :: (uniquesInOrder xs).filter (fun y => !(y == x))

theorem mem_uniquesInOrder [BEq α] [LawfulBEq α] {v : α} :
    ∀ {xs : List α}, v ∈ uniquesInOrder xs ↔ v ∈ xs := by
  intro xs
  induction xs with
  | nil => simp [uniquesInOrder]
  | cons x xs ih =>
    by_cases h : v = x <;> simp [uniquesInOrder, List.mem_filter, ih, h]

theorem nodup_uniquesInOrder [BEq α] [LawfulBEq α] :
    ∀ (xs : List α), (uniquesInOrder xs).Nodup
  | [] => by simp [uniquesInOrder]
  | x :: xs => by
    refine List.nodup_cons.mpr ⟨?_, (nodup_uniquesInOrder xs).filter _⟩
    intro hmem
    have := (List.mem_filter.mp hmem).2
    simp at this

/-- Index of the first occurrence of `v` in the list (length of the list if
absent).  Used to express the stable tie-break order of sorted counts. -/
def firstIdx [BEq α] : List α → α → Nat
  | [], _ => 0
  | x :: xs, v => if x == v then 0 else firstIdx xs v + 1

theorem firstIdx_inj [BEq α] [LawfulBEq α] {x y : α} :
    ∀ {l : List α}, x ∈ l → y ∈ l → firstIdx l x = firstIdx l y → x = y := by
  intro l
  induction l with
  | nil => intro h; simp at h
  | cons a l ih =>
    intro hx hy heq
    by_cases hax : a = x
    · by_cases hay : a = y
      · exact hax ▸ hay
      · have h1 : (a == x) = true := by simp [hax]
        have h2 : (a == y) = false := by simp [hay]
        simp [firstIdx, h1, h2] at heq
    · by_cases hay : a = y
      · have h1 : (a == x) = false := by simp [hax]
        have h2 : (a == y) = true := by simp [hay]
        simp [firstIdx, h1, h2] at heq
      · have h1 : (a == x) = false := by simp [hax]
        have h2 : (a == y) = false := by simp [hay]
        simp [firstIdx, h1, h2] at heq
        have hx' : x ∈ l := by
          rcases List.mem_cons.mp hx with h | h
          · exact absurd h.symm hax
          · exact h
        have hy' : y ∈ l := by
          rcases List.mem_cons.mp hy with h | h
          · exact absurd h.symm hay
          · exact h
        exact ih hx' hy' heq

theorem sum_map_add (l : List α) (f g : α → Nat) :
    (l.map (fun a => f a + g a)).sum = (l.map f).sum + (l.map g).sum := by
  induction l with
  | nil => simp
  | cons x xs ih => simp [ih]; omega

theorem sum_indicator_one [BEq α] [LawfulBEq α] {x : α} :
    ∀ {L : List α}, L.Nodup → x ∈ L →
      (L.map (fun v => if x == v then 1 else 0)).sum = 1 := by
  intro L
  induction L with
  | nil => intro _ h; simp at h
  | cons y L ih =>
    intro hnd hmem
    rcases List.nodup_cons.mp hnd with ⟨hy, hnd'⟩
    by_cases hxy : x = y
    · subst hxy
      have hz : ((L.map (fun v => if x == v then 1 else 0))).sum = 0 := by
        apply List.sum_eq_zero
        intro n hn
        rcases List.mem_map.mp hn with ⟨v, hv, rfl⟩
        have : x ≠ v := fun h => hy (h ▸ hv)
        simp [this]
      simp [hz]
    · have hx' : x ∈ L := by
        rcases List.mem_cons.mp hmem with h | h
        · exact absurd h hxy
        · exact h
      have : (x == y) = false := by simp [hxy]
      simp [this, ih hnd' hx']

/-- Summing the multiplicities of the elements of `col` over any duplicate-free
list `L` that covers `col` yields the length of `col`.  This is the abstract
fact behind "the counts of a frequency table sum to the number of rows". -/
theorem sum_count_eq_length [BEq α] [LawfulBEq α] :
    ∀ (col L : List α), L.Nodup → (∀ v ∈ col, v ∈ L) →
      (L.map (fun v => col.count v)).sum = col.length := by
  intro col
  induction col with
  | nil => intro L _ _; simp
  | cons x col ih =>
    intro L hnd hcov
    have hx : x ∈ L := hcov x (List.mem_cons_self x col)
    have hcov' : ∀ v ∈ col, v ∈ L := fun v hv => hcov v (List.mem_cons_of_mem x hv)
    have step : (L.map (fun v => (x :: col).count v)).sum
        = (L.map (fun v => col.count v + if x == v then 1 else 0)).sum := by
      apply congrArg
      apply List.map_congr_left
      intro v _
      simp [List.count_cons]
    rw [step, sum_map_add, ih L hnd hcov', sum_indicator_one hnd hx]
    simp

/-- Label/count pairs for the distinct values of `xs`, in first-occurrence
order, before sorting. -/
def withCounts [BEq α] (xs : List α) : List (α × Nat) :=
  (uniquesInOrder xs).map (fun v => (v, xs.count v))

/-- Sort order used by `value_counts`: descending count; on equal counts, the
label whose first occurrence in the column comes earlier goes first.  This is
what a stable descending-by-count sort of the first-occurrence key order
produces. -/
def VcRel [BEq α] (xs : List α) (p q : α × Nat) : Prop :=
  q.2 < p.2 ∨ (q.2 = p.2 ∧ firstIdx xs p.1 ≤ firstIdx xs q.1)

instance [BEq α] (xs : List α) : DecidableRel (VcRel xs) := fun p q =>
  inferInstanceAs (Decidable (_ ∨ _))

theorem vcRel_total [BEq α] (xs : List α) (p q : α × Nat) :
    VcRel xs p q ∨ VcRel xs q p := by
  unfold VcRel
  omega

theorem vcRel_trans [BEq α] (xs : List α) (p q r : α × Nat) :
    VcRel xs p q → VcRel xs q r → VcRel xs p r := by
  unfold VcRel
  omega

/-- Model of `Series.value_counts()`: count each distinct value, then sort by
count descending, ties in first-occurrence order. -/
def valueCounts [BEq α] (xs : List α) : List (α × Nat) :=
  (withCounts xs).insertionSort (VcRel xs)

theorem valueCounts_perm [BEq α] (xs : List α) :
    List.Perm (valueCounts xs) (withCounts xs) :=
  List.perm_insertionSort _ _

theorem mem_valueCounts [BEq α] {xs : List α} {p : α × Nat} :
    p ∈ valueCounts xs ↔ p ∈ withCounts xs :=
  List.mem_insertionSort _

theorem sorted_valueCounts [BEq α] (xs : List α) :
    (valueCounts xs).Pairwise (VcRel xs) := by
  haveI : IsTotal (α × Nat) (VcRel xs) := ⟨vcRel_total xs⟩
  haveI : IsTrans (α × Nat) (VcRel xs) := ⟨vcRel_trans xs⟩
  exact List.sorted_insertionSort _ _

theorem keys_withCounts [BEq α] (xs : List α) :
    (withCounts xs).map Prod.fst = uniquesInOrder xs := by
  simp [withCounts, List.map_map, Function.comp_def]

theorem mem_withCounts_elim [BEq α] [LawfulBEq α] {xs : List α} {p : α × Nat}
    (h : p ∈ withCounts xs) : p.1 ∈ xs ∧ p.2 = xs.count p.1 := by
  rcases List.mem_map.mp h with ⟨v, hv, rfl⟩
  exact ⟨mem_uniquesInOrder.mp hv, rfl⟩

theorem mem_withCounts_intro [BEq α] [LawfulBEq α] {xs : List α} {v : α}
    (h : v ∈ xs) : (v, xs.count v) ∈ withCounts xs :=
  List.mem_map.mpr ⟨v, mem_uniquesInOrder.mpr h, rfl⟩

theorem nodup_keys_valueCounts [BEq α] [LawfulBEq α] (xs : List α) :
    ((valueCounts xs).map Prod.fst).Nodup := by
  have hperm : List.Perm ((valueCounts xs).map Prod.fst) ((withCounts xs).map Prod.fst) :=
    (valueCounts_perm xs).map Prod.fst
  rw [hperm.nodup_iff, keys_withCounts]
  exact nodup_uniquesInOrder xs

theorem lookup_eq_some_of_nodup [BEq α] [LawfulBEq α] {a : α} {b : Nat} :
    ∀ {L : List (α × Nat)}, (L.map Prod.fst).Nodup → (a, b) ∈ L →
      L.lookup a = some b := by
  intro L
  induction L with
  | nil => intro _ h; simp at h
  | cons p L ih =>
    intro hnd hmem
    simp only [List.map_cons] at hnd
    rcases List.nodup_cons.mp hnd with ⟨hp, hnd'⟩
    rcases List.mem_cons.mp hmem with h | h
    · rw [← h]
      simp [List.lookup]
    · have hne : a ≠ p.1 := by
        intro heq
        exact hp (heq ▸ List.mem_map.mpr ⟨(a, b), h, rfl⟩)
      have : (a == p.1) = false := by simp [hne]
      obtain ⟨p1, p2⟩ := p
      simp only [List.lookup, this]
      exact ih hnd' h

theorem lookup_eq_none_of_forall [BEq α] [LawfulBEq α] {a : α} :
    ∀ {L : List (α × Nat)}, (∀ p ∈ L, p.1 ≠ a) → L.lookup a = none := by
  intro L
  induction L with
  | nil => intro _; simp
  | cons p L ih =>
    intro h
    have hne : a ≠ p.1 := fun heq => h p (List.mem_cons_self p L) heq.symm
    have : (a == p.1) = false := by simp [hne]
    obtain ⟨p1, p2⟩ := p
    simp only [List.lookup, this]
    exact ih fun q hq => h q (List.mem_cons_of_mem _ hq)

/-- Looking a label up in a `value_counts` table (with default 0, as
`reindex(..., fill_value=0)` does) recovers exactly the label's multiplicity
in the column. -/
theorem lookup_valueCounts [BEq α] [LawfulBEq α] (xs : List α) (a : α) :
    ((valueCounts xs).lookup a).getD 0 = xs.count a := by
  by_cases h : a ∈ xs
  · have hm : (a, xs.count a) ∈ valueCounts xs :=
      mem_valueCounts.mpr (mem_withCounts_intro h)
    rw [lookup_eq_some_of_nodup (nodup_keys_valueCounts xs) hm]
    rfl
  · have : (valueCounts xs).lookup a = none := by
      apply lookup_eq_none_of_forall
      intro p hp heq
      exact h (heq ▸ (mem_withCounts_elim (mem_valueCounts.mp hp)).1)
    rw [this]
    simp [List.count_eq_zero_of_not_mem h]

/-- Total of the counts of a frequency table. -/
def sumCounts (l : List (α × Nat)) : Nat := (l.map Prod.snd).sum

theorem sumCounts_withCounts [BEq α] [LawfulBEq α] (xs : List α) :
    sumCounts (withCounts xs) = xs.length := by
  unfold sumCounts withCounts
  rw [List.map_map]
  exact sum_count_eq_length xs (uniquesInOrder xs) (nodup_uniquesInOrder xs)
    (fun v hv => mem_uniquesInOrder.mpr hv)

theorem sumCounts_valueCounts [BEq α] [LawfulBEq α] (xs : List α) :
    sumCounts (valueCounts xs) = xs.length := by
  have := ((valueCounts_perm xs).map Prod.snd).sum_eq
  unfold sumCounts
  rw [this]
  exact sumCounts_withCounts xs

/-- Helper for `idxmax`: running best-so-far over the remaining entries,
keeping the earlier entry on ties (strict comparison), as `Series.idxmax`
does. -/
def idxmaxAux (best : β × Nat) : List (β × Nat) → β × Nat
  | [] => best
  | y :: ys => idxmaxAux (if best.2 < y.2 then y else best) ys

/-- Model of `Series.idxmax` bundled with the max value: the first entry
attaining the maximal count, or `none` on an empty series (where pandas
raises `ValueError`). -/
def idxmax : List (β × Nat) → Option (β × Nat)
  | [] => none
  | x :: xs => some (idxmaxAux x xs)

theorem idxmaxAux_spec :
    ∀ (xs : List (β × Nat)) (b : β × Nat),
      (idxmaxAux b xs = b ∨ idxmaxAux b xs ∈ xs) ∧
      b.2 ≤ (idxmaxAux b xs).2 ∧ ∀ y ∈ xs, y.2 ≤ (idxmaxAux b xs).2 := by
  intro xs
  induction xs with
  | nil => intro b; simp [idxmaxAux]
  | cons y ys ih =>
    intro b
    have hstep : idxmaxAux b (y :: ys) = idxmaxAux (if b.2 < y.2 then y else b) ys := rfl
    rcases ih (if b.2 < y.2 then y else b) with ⟨hmem, hle, hall⟩
    refine ⟨?_, ?_, ?_⟩
    · rw [hstep]
      rcases hmem with h | h
      · rw [h]
        by_cases hb : b.2 < y.2
        · simp [hb]
        · simp [hb]
      · exact Or.inr (List.mem_cons_of_mem _ h)
    · rw [hstep]
      refine le_trans ?_ hle
      by_cases hb : b.2 < y.2 <;> simp [hb] <;> omega
    · intro z hz
      rw [hstep]
      rcases List.mem_cons.mp hz with h | h
      · subst h
        refine le_trans ?_ hle
        by_cases hb : b.2 < z.2 <;> simp [hb] <;> omega
      · exact hall z h

theorem idxmax_spec {l : List (β × Nat)} {m : β × Nat} (h : idxmax l = some m) :
    m ∈ l ∧ ∀ y ∈ l, y.2 ≤ m.2 := by
  cases l with
  | nil => simp [idxmax] at h
  | cons x xs =>
    have hm : m = idxmaxAux x xs := by
      simp [idxmax] at h
      exact h.symm
    rcases idxmaxAux_spec xs x with ⟨hmem, hle, hall⟩
    constructor
    · rw [hm]
      rcases hmem with h' | h'
      · rw [h']; exact List.mem_cons_self x xs
      · exact List.mem_cons_of_mem _ h'
    · intro y hy
      rw [hm]
      rcases List.mem_cons.mp hy with h' | h'
      · subst h'; exact hle
      · exact hall y h'

/-- Cell of the DATA column.  As loaded, the column holds raw strings (or
null); `analise_temporal` overwrites it in place with
`pd.to_datetime(..., dayfirst=True, errors="coerce")`, after which it holds
parsed dates (or null for missing/unparseable values). -/
inductive DataCell where
  | raw : Option String → DataCell
  | parsed : Option (Nat × Nat × Nat) → DataCell
deriving DecidableEq, Repr

/-- One row of `dados_constituinte.csv` after loading: the columns the script
uses, with `none` for values that were null (`NA` or empty) in the source.
Dates are stored as day/month/year triples once parsed. -/
structure Record where
  sexo : Option String
  faixaEtaria : Option String
  instrucao : Option String
  estadoCivil : Option String
  uf : Option String
  data : DataCell
  sugestaoTexto : Option String
deriving DecidableEq, Repr

/-- The DataFrame: an ordered collection of records. -/
abbrev Dataset := List Record

/-- Split a character list on a separator, keeping empty segments, like
`"a/b/c".split("/")`. -/
def splitChar (sep : Char) : List Char → List (List Char)
  | [] => [[]]
  | c :: cs =>
    if c == sep then [] :: splitChar sep cs
    else
      match splitChar sep cs with
      | [] => [[c]]
      | seg :: rest => (c :: seg) :: rest

/-- Numeric value of a digit string. -/
def digitsToNat (cs : List Char) : Nat :=
  cs.foldl (fun n c => 10 * n + (c.toNat - 48)) 0

/-- Day-first date parser: model of
`pd.to_datetime(value, dayfirst=True, errors="coerce")` restricted to the
`DD/MM/YYYY` shape (the spec's "day-first (DD/MM/YYYY or similar)").
Returns `(day, month, year)`, or `none` for anything unparseable. -/
def parseDate (s : String) : Option (Nat × Nat × Nat) :=
  match splitChar '/' s.data with
  | [ds, ms, ys] =>
    if ds.isEmpty || ms.isEmpty || !(ds.all Char.isDigit) || !(ms.all Char.isDigit) ||
        !(ys.all Char.isDigit) || ys.length != 4 then none
    else
      let d := digitsToNat ds
      let m := digitsToNat ms
      let y := digitsToNat ys
      if 1 ≤ d && d ≤ 31 && 1 ≤ m && m ≤ 12 then some (d, m, y) else none
  | _ => none

/-- Effect of `df["DATA"] = pd.to_datetime(df["DATA"], dayfirst=True,
errors="coerce")` on one cell: raw strings are parsed (unparseable or null
becomes null); an already-converted cell passes through unchanged. -/
def toDatetimeCell : DataCell → DataCell
  | .raw s => .parsed (s.bind parseDate)
  | .parsed d => .parsed d

/-- The `(year, month)` period of a cell, as `Series.dt.to_period("M")`
produces, or `none` for null. -/
def cellPeriod : DataCell → Option (Nat × Nat)
  | .raw s => (s.bind parseDate).map (fun t => (t.2.2, t.2.1))
  | .parsed d => d.map (fun t => (t.2.2, t.2.1))

/-- Nullness of a DATA cell, as `isnull()` sees it. -/
def isnullCell : DataCell → Bool
  | .raw none => true
  | .raw (some _) => false
  | .parsed none => true
  | .parsed (some _) => false

/-- Sentinel the script substitutes for null categorical values. -/
def naoInformado : String := "NÃO INFORMADO"

/-- Fixed canonical display order for age brackets (`ordem_faixa` in the
script): seven brackets plus the not-informed sentinel. -/
def ordem_faixa : List String :=
  ["15 A 19 ANOS", "20 A 24 ANOS", "25 A 29 ANOS", "30 A 39 ANOS",
   "40 A 49 ANOS", "50 A 59 ANOS", "ACIMA DE 59 ANOS", "NÃO INFORMADO"]

/-- In-place `df["SEXO"] = df["SEXO"].fillna("NÃO INFORMADO")` on one row. -/
def fillSexoR (r : Record) : Record := { r with sexo := some (r.sexo.getD naoInformado) }

/-- In-place fillna on the FAIXA ETÁRIA column, one row. -/
def fillFaixaR (r : Record) : Record :=
  { r with faixaEtaria := some (r.faixaEtaria.getD naoInformado) }

/-- In-place fillna on the INSTRUCAO column, one row. -/
def fillInstrucaoR (r : Record) : Record :=
  { r with instrucao := some (r.instrucao.getD naoInformado) }

/-- In-place fillna on the ESTADO CIVIL column, one row. -/
def fillEstadoCivilR (r : Record) : Record :=
  { r with estadoCivil := some (r.estadoCivil.getD naoInformado) }

/-- In-place fillna on the UF column, one row. -/
def fillUfR (r : Record) : Record := { r with uf := some (r.uf.getD naoInformado) }

/-- In-place date coercion on the DATA column, one row. -/
def coerceDataR (r : Record) : Record := { r with data := toDatetimeCell r.data }

/-- Missing-value count that the Profiler (`analise_preliminar`, which runs
before every aggregator) reports for the DATA column: nulls as loaded. -/
def missingDATA (df : Dataset) : Nat :=
  (df.filter (fun r => isnullCell r.data)).length

/-- Model of `reindex(ordem, fill_value=0)`: one entry per label of `ordem`,
in that order, taking the existing count or 0. -/
def reindexZero (ordem : List String) (vc : List (String × Nat)) : List (String × Nat) :=
  ordem.map (fun l => (l, (vc.lookup l).getD 0))

/-- The four frequency tables the demographic aggregator draws. -/
structure DemogOut where
  sexoCounts : List (String × Nat)
  faixaEtaria : List (String × Nat)
  instrucao : List (String × Nat)
  estadoCivil : List (String × Nat)
deriving DecidableEq, Repr

/-- Demographic aggregator (`analise_demografica`): fills each categorical
column in place with the not-informed sentinel, takes `value_counts`, and
post-processes: age brackets are reindexed into `ordem_faixa` with 0-fill,
education keeps the top 8 rows, marital status the top 6.  Returns the
mutated DataFrame together with the tables. -/
def analise_demografica (df : Dataset) : Dataset × DemogOut :=
  let df1 := df.map fillSexoR
  let sexoCounts := valueCounts (df1.filterMap (fun r => r.sexo))
  let df2 := df1.map fillFaixaR
  let faixa := reindexZero ordem_faixa (valueCounts (df2.filterMap (fun r => r.faixaEtaria)))
  let df3 := df2.map fillInstrucaoR
  let instr := (valueCounts (df3.filterMap (fun r => r.instrucao))).take 8
  let df4 := df3.map fillEstadoCivilR
  let est := (valueCounts (df4.filterMap (fun r => r.estadoCivil))).take 6
  (df4, ⟨sexoCounts, faixa, instr, est⟩)

/-- Geographic aggregator (`analise_geografica`): fills UF in place, then
keeps the 10 most frequent region codes. -/
def analise_geografica (df : Dataset) : Dataset × List (String × Nat) :=
  let df1 := df.map fillUfR
  (df1, (valueCounts (df1.filterMap (fun r => r.uf))).take 10)

/-- Chronological (year, month) order on bucket entries, used by `groupby`
to sort its keys. -/
def MRel (p q : (Nat × Nat) × Nat) : Prop :=
  p.1.1 < q.1.1 ∨ (p.1.1 = q.1.1 ∧ p.1.2 ≤ q.1.2)

instance : DecidableRel MRel := fun p q => inferInstanceAs (Decidable (_ ∨ _))

theorem mRel_total (p q : (Nat × Nat) × Nat) : MRel p q ∨ MRel q p := by
  unfold MRel
  omega

theorem mRel_trans (p q r : (Nat × Nat) × Nat) : MRel p q → MRel q r → MRel p r := by
  unfold MRel
  omega

/-- Model of `df.groupby(df["DATA"].dt.to_period("M")).size()`: one entry per
month occurring in the data (no gap filling), keys sorted chronologically. -/
def groupbyMonth (ms : List (Nat × Nat)) : List ((Nat × Nat) × Nat) :=
  (withCounts ms).insertionSort MRel

/-- Output of the temporal aggregator: month buckets, and the peak bucket
with its count (`idxmax`/`max`); `none` models the `ValueError` that
`idxmax` raises on an empty series. -/
structure TemporalOut where
  buckets : List ((Nat × Nat) × Nat)
  pico : Option ((Nat × Nat) × Nat)
deriving DecidableEq, Repr

/-- Temporal aggregator (`analise_temporal`): coerces the DATA column in
place, buckets the parseable dates by calendar month (null dates are dropped
by `groupby`), and designates the peak month. -/
def analise_temporal (df : Dataset) : Dataset × TemporalOut :=
  let df1 := df.map coerceDataR
  let buckets := groupbyMonth (df1.filterMap (fun r => cellPeriod r.data))
  (df1, ⟨buckets, idxmax buckets⟩)

/-- Lower-case letters of the content tokenizer's character class:
`[a-záéíóúâêîôûãõç]`. -/
def lowerAccented : List Char :=
  ['á', 'é', 'í', 'ó', 'ú', 'â', 'ê', 'î', 'ô', 'û', 'ã', 'õ', 'ç']

/-- Upper-case accented letters, needed to model `str.lower()` and word
boundaries. -/
def upperAccented : List Char :=
  ['Á', 'É', 'Í', 'Ó', 'Ú', 'Â', 'Ê', 'Î', 'Ô', 'Û', 'Ã', 'Õ', 'Ç']

/-- Membership in the regex character class `[a-záéíóúâêîôûãõç]`. -/
def isClassChar (c : Char) : Bool :=
  ('a' ≤ c && c ≤ 'z') || lowerAccented.contains c

/-- Word character for the `\b` boundaries of the pattern, restricted to the
alphabet relevant here (ASCII alphanumerics, underscore, the accented
letters).  Python's `\w` is the full Unicode class; only this subset can
occur around matches of the class above in the modelled texts. -/
def isWordChar (c : Char) : Bool :=
  c.isAlphanum || c == '_' || lowerAccented.contains c || upperAccented.contains c

/-- Model of `str.lower()` on the alphabet used here: ASCII letters and the
accented letters are lowered, everything else is unchanged. -/
def pyLowerChar (c : Char) : Char :=
  match c with
  | 'Á' => 'á' | 'É' => 'é' | 'Í' => 'í' | 'Ó' => 'ó' | 'Ú' => 'ú'
  | 'Â' => 'â' | 'Ê' => 'ê' | 'Î' => 'î' | 'Ô' => 'ô' | 'Û' => 'û'
  | 'Ã' => 'ã' | 'Õ' => 'õ' | 'Ç' => 'ç'
  | _ => c.toLower

/-- Lower-case a whole string. -/
def pyLower (s : String) : String := String.mk (s.data.map pyLowerChar)

/-- Maximal runs of word characters in a character stream; accumulator-based
so that it evaluates structurally. -/
def wordRunsAux : List Char → List Char → List (List Char)
  | [], acc => if acc.isEmpty then [] else [acc.reverse]
  | c :: cs, acc =>
    if isWordChar c then wordRunsAux cs (c :: acc)
    else if acc.isEmpty then wordRunsAux cs []
    else acc.reverse :: wordRunsAux cs []

/-- Maximal runs of word characters of a string's characters. -/
def wordRuns (cs : List Char) : List (List Char) := wordRunsAux cs []

/-- Model of `re.findall(r"\b[a-záéíóúâêîôûãõç]{4,}\b", text)`: a match is a
maximal word-character run consisting entirely of class characters with
length at least 4 (a run containing any other word character yields no match,
since `\b` cannot fall inside a run and `{4,}` cannot skip characters). -/
def findTokens (s : String) : List String :=
  (wordRuns s.data).filterMap (fun run =>
    if 4 ≤ run.length && run.all isClassChar then some (String.mk run) else none)

/-- The script's literal Portuguese stop-word set. -/
def stop_words : List String :=
  ["que", "com", "para", "uma", "mais", "como", "sobre", "seus", "este", "esta",
   "ser", "seja", "são", "mas", "muito", "nosso", "nossa", "pelos", "pelas",
   "essa", "esse", "isso", "aquele", "aquela", "entre", "através", "quando"]

/-- Token stream of the content aggregator after the stop-word filter:
non-null texts joined by spaces, lowered, tokenized, stop words removed. -/
def palavrasFiltradas (df : Dataset) : List String :=
  let textos := df.filterMap (fun r => r.sugestaoTexto)
  let todos := String.intercalate " " textos
  (findTokens (pyLower todos)).filter (fun p => !(stop_words.contains p))

/-- Content aggregator (`analise_conteudo`): counts the filtered tokens and
keeps the top 15.  When the top list is empty the script's
`palavras, frequencias = zip(*top_palavras)` raises `ValueError`, modelled by
`Except.error`; the DataFrame is never written. -/
def analise_conteudo (df : Dataset) : Dataset × Except String (List (String × Nat)) :=
  let top := (valueCounts (palavrasFiltradas df)).take 15
  if top.isEmpty then
    (df, Except.error "not enough values to unpack (expected 2, got 0)")
  else
    (df, Except.ok top)

/-- Conditions the loader can meet: the CSV file is absent, reading or
parsing it raises (any exception is caught), or it yields a DataFrame. -/
inductive LoadSource where
  | missingFile : LoadSource
  | loadError : String → LoadSource
  | ok : Dataset → LoadSource

/-- Model of `carregar_dados`: a DataFrame or `None`, together with the error
messages the function itself prints.  It never lets an exception escape. -/
def carregar_dados : LoadSource → Option Dataset × List String
  | .missingFile =>
      (none, ["Arquivo dados_constituinte.csv não encontrado",
              "Certifique-se de que o arquivo está na mesma pasta do script"])
  | .loadError msg => (none, ["Erro ao carregar dados: " ++ msg])
  | .ok d => (some d, [])

/-- Observable outcome of the `__main__` driver: failure messages printed,
whether the analysis passes ran, and which chart files were written. -/
structure MainTrace where
  failureMessages : List String
  aggregationsRan : Bool
  chartsSaved : List String
deriving DecidableEq, Repr

/-- The four chart artifacts a successful run saves. -/
def chartFiles : List String :=
  ["perfil_demografico.png", "distribuicao_geografica.png",
   "evolucao_temporal.png", "palavras_frequentes.png"]

/-- Model of the `__main__` block: load, then either run every analysis and
save the charts, or print one more failure message and stop. -/
def mainRun (src : LoadSource) : MainTrace :=
  match carregar_dados src with
  | (some _, _) => ⟨[], true, chartFiles⟩
  | (none, diags) =>
      ⟨diags ++ ["Não foi possível carregar os dados. Verifique o arquivo CSV."],
       false, []⟩

instance instDecEqExcept [DecidableEq ε] [DecidableEq β] : DecidableEq (Except ε β) :=
  fun x y =>
  match x, y with
  | .error a, .error b => decidable_of_iff (a = b) (by simp)
  | .error _, .ok _ => isFalse (by simp)
  | .ok _, .error _ => isFalse (by simp)
  | .ok a, .ok b => decidable_of_iff (a = b) (by simp)

/-- Combined outputs of the four aggregators. -/
structure AllOut where
  demog : DemogOut
  geo : List (String × Nat)
  temporal : TemporalOut
  conteudo : Except String (List (String × Nat))
deriving DecidableEq, Repr

/-- One report run: the four aggregators in script order, each reading (and
mutating) the shared DataFrame. -/
def runAll (df : Dataset) : Dataset × AllOut :=
  let pd := analise_demografica df
  let pg := analise_geografica pd.1
  let pt := analise_temporal pg.1
  let pc := analise_conteudo pt.1
  (pc.1, ⟨pd.2, pg.2, pt.2, pc.2⟩)

@[simp] theorem fillSexoR_sexo (r : Record) :
    (fillSexoR r).sexo = some (r.sexo.getD naoInformado) := rfl

@[simp] theorem fillSexoR_faixaEtaria (r : Record) :
    (fillSexoR r).faixaEtaria = r.faixaEtaria := rfl

@[simp] theorem fillSexoR_instrucao (r : Record) :
    (fillSexoR r).instrucao = r.instrucao := rfl

@[simp] theorem fillSexoR_estadoCivil (r : Record) :
    (fillSexoR r).estadoCivil = r.estadoCivil := rfl

@[simp] theorem fillSexoR_uf (r : Record) : (fillSexoR r).uf = r.uf := rfl

@[simp] theorem fillSexoR_data (r : Record) : (fillSexoR r).data = r.data := rfl

@[simp] theorem fillSexoR_texto (r : Record) :
    (fillSexoR r).sugestaoTexto = r.sugestaoTexto := rfl

@[simp] theorem fillFaixaR_sexo (r : Record) : (fillFaixaR r).sexo = r.sexo := rfl

@[simp] theorem fillFaixaR_faixaEtaria (r : Record) :
    (fillFaixaR r).faixaEtaria = some (r.faixaEtaria.getD naoInformado) := rfl

@[simp] theorem fillFaixaR_instrucao (r : Record) :
    (fillFaixaR r).instrucao = r.instrucao := rfl

@[simp] theorem fillFaixaR_estadoCivil (r : Record) :
    (fillFaixaR r).estadoCivil = r.estadoCivil := rfl

@[simp] theorem fillFaixaR_uf (r : Record) : (fillFaixaR r).uf = r.uf := rfl

@[simp] theorem fillFaixaR_data (r : Record) : (fillFaixaR r).data = r.data := rfl

@[simp] theorem fillFaixaR_texto (r : Record) :
    (fillFaixaR r).sugestaoTexto = r.sugestaoTexto := rfl

@[simp] theorem fillInstrucaoR_sexo (r : Record) : (fillInstrucaoR r).sexo = r.sexo := rfl

@[simp] theorem fillInstrucaoR_faixaEtaria (r : Record) :
    (fillInstrucaoR r).faixaEtaria = r.faixaEtaria := rfl

@[simp] theorem fillInstrucaoR_instrucao (r : Record) :
    (fillInstrucaoR r).instrucao = some (r.instrucao.getD naoInformado) := rfl

@[simp] theorem fillInstrucaoR_estadoCivil (r : Record) :
    (fillInstrucaoR r).estadoCivil = r.estadoCivil := rfl

@[simp] theorem fillInstrucaoR_uf (r : Record) : (fillInstrucaoR r).uf = r.uf := rfl

@[simp] theorem fillInstrucaoR_data (r : Record) : (fillInstrucaoR r).data = r.data := rfl

@[simp] theorem fillInstrucaoR_texto (r : Record) :
    (fillInstrucaoR r).sugestaoTexto = r.sugestaoTexto := rfl

@[simp] theorem fillEstadoCivilR_sexo (r : Record) : (fillEstadoCivilR r).sexo = r.sexo := rfl

@[simp] theorem fillEstadoCivilR_faixaEtaria (r : Record) :
    (fillEstadoCivilR r).faixaEtaria = r.faixaEtaria := rfl

@[simp] theorem fillEstadoCivilR_instrucao (r : Record) :
    (fillEstadoCivilR r).instrucao = r.instrucao := rfl

@[simp] theorem fillEstadoCivilR_estadoCivil (r : Record) :
    (fillEstadoCivilR r).estadoCivil = some (r.estadoCivil.getD naoInformado) := rfl

@[simp] theorem fillEstadoCivilR_uf (r : Record) : (fillEstadoCivilR r).uf = r.uf := rfl

@[simp] theorem fillEstadoCivilR_data (r : Record) : (fillEstadoCivilR r).data = r.data := rfl

@[simp] theorem fillEstadoCivilR_texto (r : Record) :
    (fillEstadoCivilR r).sugestaoTexto = r.sugestaoTexto := rfl

@[simp] theorem fillUfR_sexo (r : Record) : (fillUfR r).sexo = r.sexo := rfl

@[simp] theorem fillUfR_faixaEtaria (r : Record) :
    (fillUfR r).faixaEtaria = r.faixaEtaria := rfl

@[simp] theorem fillUfR_instrucao (r : Record) : (fillUfR r).instrucao = r.instrucao := rfl

@[simp] theorem fillUfR_estadoCivil (r : Record) :
    (fillUfR r).estadoCivil = r.estadoCivil := rfl

@[simp] theorem fillUfR_uf (r : Record) :
    (fillUfR r).uf = some (r.uf.getD naoInformado) := rfl

@[simp] theorem fillUfR_data (r : Record) : (fillUfR r).data = r.data := rfl

@[simp] theorem fillUfR_texto (r : Record) :
    (fillUfR r).sugestaoTexto = r.sugestaoTexto := rfl

@[simp] theorem coerceDataR_sexo (r : Record) : (coerceDataR r).sexo = r.sexo := rfl

@[simp] theorem coerceDataR_faixaEtaria (r : Record) :
    (coerceDataR r).faixaEtaria = r.faixaEtaria := rfl

@[simp] theorem coerceDataR_instrucao (r : Record) :
    (coerceDataR r).instrucao = r.instrucao := rfl

@[simp] theorem coerceDataR_estadoCivil (r : Record) :
    (coerceDataR r).estadoCivil = r.estadoCivil := rfl

@[simp] theorem coerceDataR_uf (r : Record) : (coerceDataR r).uf = r.uf := rfl

@[simp] theorem coerceDataR_data (r : Record) :
    (coerceDataR r).data = toDatetimeCell r.data := rfl

@[simp] theorem coerceDataR_texto (r : Record) :
    (coerceDataR r).sugestaoTexto = r.sugestaoTexto := rfl

@[simp] theorem toDatetimeCell_idem (c : DataCell) :
    toDatetimeCell (toDatetimeCell c) = toDatetimeCell c := by
  cases c <;> rfl

@[simp] theorem cellPeriod_toDatetimeCell (c : DataCell) :
    cellPeriod (toDatetimeCell c) = cellPeriod c := by
  cases c <;> rfl

@[simp] theorem filterMap_some_eq_map (f : α → β) (l : List α) :
    l.filterMap (fun a => some (f a)) = l.map f :=
  congrFun (List.filterMap_eq_map f) l

/-- The SEXO column as the demographic aggregator counts it (after fillna). -/
def sexoColuna (df : Dataset) : List String :=
  df.map (fun r => r.sexo.getD naoInformado)

/-- The FAIXA ETÁRIA column after fillna. -/
def faixaColuna (df : Dataset) : List String :=
  df.map (fun r => r.faixaEtaria.getD naoInformado)

/-- The INSTRUCAO column after fillna. -/
def instrucaoColuna (df : Dataset) : List String :=
  df.map (fun r => r.instrucao.getD naoInformado)

/-- The ESTADO CIVIL column after fillna. -/
def estadoCivilColuna (df : Dataset) : List String :=
  df.map (fun r => r.estadoCivil.getD naoInformado)

/-- The UF column after fillna. -/
def ufColuna (df : Dataset) : List String :=
  df.map (fun r => r.uf.getD naoInformado)

/-- The (year, month) periods of the rows whose dates parse. -/
def parsedMonths (df : Dataset) : List (Nat × Nat) :=
  df.filterMap (fun r => cellPeriod (toDatetimeCell r.data))

theorem analise_demografica_outputs (df : Dataset) :
    (analise_demografica df).2 =
      ⟨valueCounts (sexoColuna df),
       reindexZero ordem_faixa (valueCounts (faixaColuna df)),
       (valueCounts (instrucaoColuna df)).take 8,
       (valueCounts (estadoCivilColuna df)).take 6⟩ := by
  simp [analise_demografica, sexoColuna, faixaColuna, instrucaoColuna, estadoCivilColuna,
    List.map_map, List.filterMap_map, Function.comp_def]

theorem analise_geografica_output (df : Dataset) :
    (analise_geografica df).2 = (valueCounts (ufColuna df)).take 10 := by
  simp [analise_geografica, ufColuna, List.map_map, List.filterMap_map, Function.comp_def]

theorem analise_temporal_output (df : Dataset) :
    (analise_temporal df).2 =
      ⟨groupbyMonth (parsedMonths df), idxmax (groupbyMonth (parsedMonths df))⟩ := by
  simp [analise_temporal, parsedMonths, List.filterMap_map, Function.comp_def]

theorem groupbyMonth_perm (ms : List (Nat × Nat)) :
    List.Perm (groupbyMonth ms) (withCounts ms) :=
  List.perm_insertionSort _ _

theorem sorted_groupbyMonth (ms : List (Nat × Nat)) :
    (groupbyMonth ms).Pairwise MRel := by
  haveI : IsTotal ((Nat × Nat) × Nat) MRel := ⟨mRel_total⟩
  haveI : IsTrans ((Nat × Nat) × Nat) MRel := ⟨fun a b c => mRel_trans a b c⟩
  exact List.sorted_insertionSort _ _

theorem nodup_keys_groupbyMonth (ms : List (Nat × Nat)) :
    ((groupbyMonth ms).map Prod.fst).Nodup := by
  have hperm : List.Perm ((groupbyMonth ms).map Prod.fst) ((withCounts ms).map Prod.fst) :=
    (groupbyMonth_perm ms).map Prod.fst
  rw [hperm.nodup_iff, keys_withCounts]
  exact nodup_uniquesInOrder ms

theorem sumCounts_groupbyMonth (ms : List (Nat × Nat)) :
    sumCounts (groupbyMonth ms) = ms.length := by
  have := ((groupbyMonth_perm ms).map Prod.snd).sum_eq
  unfold sumCounts
  rw [this]
  exact sumCounts_withCounts ms

/-- Record with every field null; building block for concrete datasets. -/
def rNull : Record := ⟨none, none, none, none, none, .raw none, none⟩

/-- One all-null row. -/
def dfOneRow : Dataset := [rNull]

/-- Nine rows with nine distinct education levels (more than the top-8 cut). -/
def dfNineInstr : Dataset :=
  [{ rNull with instrucao := some "E1" }, { rNull with instrucao := some "E2" },
   { rNull with instrucao := some "E3" }, { rNull with instrucao := some "E4" },
   { rNull with instrucao := some "E5" }, { rNull with instrucao := some "E6" },
   { rNull with instrucao := some "E7" }, { rNull with instrucao := some "E8" },
   { rNull with instrucao := some "E9" }]

/-- C1, counterexample: with 9 distinct education levels the education
FrequencyTable is truncated to its top 8 rows by `head(8)`, so its counts sum
to 8, not to the row count 9.  The claim that every demographic table sums to
the total row count is therefore false as stated. -/
theorem c1_counterexample :
    sumCounts ((analise_demografica dfNineInstr).2.instrucao) ≠ dfNineInstr.length := by
  decide

/-- C1, amended: the sex table always sums to the row count; the age-bracket
table sums to the row count when every filled age value lies in the canonical
bracket list (reindex drops alien labels); the education and marital-status
tables sum to the row count when the number of distinct filled values is at
most the truncation threshold (8, resp. 6). -/
theorem c1_demographic_sums (df : Dataset) :
    sumCounts ((analise_demografica df).2.sexoCounts) = df.length
    ∧ ((∀ r ∈ df, r.faixaEtaria.getD naoInformado ∈ ordem_faixa) →
        sumCounts ((analise_demografica df).2.faixaEtaria) = df.length)
    ∧ ((valueCounts (instrucaoColuna df)).length ≤ 8 →
        sumCounts ((analise_demografica df).2.instrucao) = df.length)
    ∧ ((valueCounts (estadoCivilColuna df)).length ≤ 6 →
        sumCounts ((analise_demografica df).2.estadoCivil) = df.length) := by
  simp only [analise_demografica_outputs]
  refine ⟨?_, ?_, ?_, ?_⟩
  · rw [sumCounts_valueCounts]
    simp [sexoColuna]
  · intro h
    unfold sumCounts reindexZero
    rw [List.map_map]
    have hcong : ∀ l ∈ ordem_faixa,
        (Prod.snd ∘ fun l => (l, ((valueCounts (faixaColuna df)).lookup l).getD 0)) l
          = (faixaColuna df).count l := fun l _ => lookup_valueCounts _ l
    rw [List.map_congr_left hcong]
    rw [sum_count_eq_length (faixaColuna df) ordem_faixa (by decide) ?_]
    · simp [faixaColuna]
    · intro v hv
      rcases List.mem_map.mp hv with ⟨r, hr, rfl⟩
      exact h r hr
  · intro h
    rw [List.take_of_length_le h, sumCounts_valueCounts]
    simp [instrucaoColuna]
  · intro h
    rw [List.take_of_length_le h, sumCounts_valueCounts]
    simp [estadoCivilColuna]

/-- C1, witness: on a concrete one-row dataset all four amended sums hold. -/
theorem c1_demographic_sums_witness :
    sumCounts ((analise_demografica dfOneRow).2.sexoCounts) = dfOneRow.length
    ∧ sumCounts ((analise_demografica dfOneRow).2.faixaEtaria) = dfOneRow.length
    ∧ sumCounts ((analise_demografica dfOneRow).2.instrucao) = dfOneRow.length
    ∧ sumCounts ((analise_demografica dfOneRow).2.estadoCivil) = dfOneRow.length :=
  ⟨(c1_demographic_sums dfOneRow).1,
   (c1_demographic_sums dfOneRow).2.1 (by decide),
   (c1_demographic_sums dfOneRow).2.2.1 (by decide),
   (c1_demographic_sums dfOneRow).2.2.2 (by decide)⟩

/-- C4: for every dataset the age-bracket table has exactly the 8 canonical
labels, in the fixed canonical order, and a canonical label that does not
occur in the (filled) age column is present with count 0 rather than
omitted. -/
theorem c4_age_reindex_total (df : Dataset) :
    ((analise_demografica df).2.faixaEtaria).map Prod.fst = ordem_faixa
    ∧ ((analise_demografica df).2.faixaEtaria).length = 8
    ∧ (∀ l ∈ ordem_faixa, l ∉ faixaColuna df →
        (l, 0) ∈ (analise_demografica df).2.faixaEtaria) := by
  simp only [analise_demografica_outputs]
  refine ⟨?_, ?_, ?_⟩
  · simp [reindexZero, List.map_map, Function.comp_def]
  · simp [reindexZero, ordem_faixa]
  · intro l hl hnot
    have hcount : (faixaColuna df).count l = 0 := List.count_eq_zero_of_not_mem hnot
    have hz : ((valueCounts (faixaColuna df)).lookup l).getD 0 = 0 := by
      rw [lookup_valueCounts]
      exact hcount
    unfold reindexZero
    exact List.mem_map.mpr ⟨l, hl, by rw [hz]⟩

/-- C4, witness: on the one-row dataset the bracket "15 A 19 ANOS" is absent
from the data yet present in the table with count 0. -/
theorem c4_age_reindex_total_witness :
    ("15 A 19 ANOS", 0) ∈ (analise_demografica dfOneRow).2.faixaEtaria :=
  (c4_age_reindex_total dfOneRow).2.2 "15 A 19 ANOS" (by decide) (by decide)

/-- Three rows with region codes SP, RJ, SP. -/
def dfGeo : Dataset :=
  [{ rNull with uf := some "SP" }, { rNull with uf := some "RJ" },
   { rNull with uf := some "SP" }]

/-- C7: the geographic top-10 list is a sublist of the full per-region count
table, its counts are descending, and on equal counts the region whose code
first occurs earlier in the column comes first (stable, deterministic
tie-break). -/
theorem c7_geo_top10 (df : Dataset) :
    (∀ p ∈ (analise_geografica df).2, p ∈ valueCounts (ufColuna df))
    ∧ ((analise_geografica df).2).Pairwise (fun p q => q.2 ≤ p.2)
    ∧ ((analise_geografica df).2).Pairwise (fun p q =>
        p.2 = q.2 → firstIdx (ufColuna df) p.1 < firstIdx (ufColuna df) q.1) := by
  simp only [analise_geografica_output]
  have hsorted : (valueCounts (ufColuna df)).Pairwise (VcRel (ufColuna df)) :=
    sorted_valueCounts _
  have hne : (valueCounts (ufColuna df)).Pairwise (fun p q => p.1 ≠ q.1) :=
    List.pairwise_map.mp (nodup_keys_valueCounts (ufColuna df))
  refine ⟨fun p hp => List.take_subset 10 _ hp, ?_, ?_⟩
  · refine List.Pairwise.sublist (List.take_sublist 10 _) (hsorted.imp ?_)
    intro p q hpq
    unfold VcRel at hpq
    omega
  · refine List.Pairwise.sublist (List.take_sublist 10 _) ((hsorted.and hne).imp_of_mem ?_)
    intro p q hp hq hpq heq
    rcases hpq with ⟨hvc, hkey⟩
    have hp1 : p.1 ∈ ufColuna df := (mem_withCounts_elim (mem_valueCounts.mp hp)).1
    have hq1 : q.1 ∈ ufColuna df := (mem_withCounts_elim (mem_valueCounts.mp hq)).1
    have hle : firstIdx (ufColuna df) p.1 ≤ firstIdx (ufColuna df) q.1 := by
      unfold VcRel at hvc
      omega
    have hidx : firstIdx (ufColuna df) p.1 ≠ firstIdx (ufColuna df) q.1 :=
      fun hEq => hkey (firstIdx_inj hp1 hq1 hEq)
    omega

/-- C7, witness: on the SP/RJ/SP dataset the top entry ("SP", 2) of the
top-10 list belongs to the full count table. -/
theorem c7_geo_top10_witness : ("SP", 2) ∈ valueCounts (ufColuna dfGeo) :=
  (c7_geo_top10 dfGeo).1 ("SP", 2) (by decide)

/-- The content aggregator never writes to the DataFrame. -/
theorem analise_conteudo_state (df : Dataset) : (analise_conteudo df).1 = df := by
  by_cases h : ((valueCounts (palavrasFiltradas df)).take 15).isEmpty <;>
    simp [analise_conteudo, h]

/-- Value of the content aggregator, separated from its (trivial) state
effect. -/
theorem analise_conteudo_output (df : Dataset) :
    (analise_conteudo df).2 =
      if ((valueCounts (palavrasFiltradas df)).take 15).isEmpty then
        Except.error "not enough values to unpack (expected 2, got 0)"
      else Except.ok ((valueCounts (palavrasFiltradas df)).take 15) := by
  by_cases h : ((valueCounts (palavrasFiltradas df)).take 15).isEmpty <;>
    simp [analise_conteudo, h]

/-- C2, counterexample: `analise_demografica` writes to the shared DataFrame
(`df["SEXO"] = df["SEXO"].fillna(...)`): on a one-row dataset with null SEXO
the returned DataFrame differs from the input, so the aggregators are not
read-only. -/
theorem c2_counterexample : (analise_demografica dfOneRow).1 ≠ dfOneRow := by
  decide

/-- C2, amended: the aggregators do write to the shared table (fillna and the
DATA coercion are in place), but each writes only columns that no other
aggregator reads, so any two aggregators commute: each one's output is
unchanged by running the other first, and the final DataFrame does not depend
on the order.  Hence the four aggregators may run in any order with identical
results. -/
theorem c2_aggregators_commute (df : Dataset) :
    ((analise_demografica (analise_geografica df).1).2 = (analise_demografica df).2
      ∧ (analise_geografica (analise_demografica df).1).2 = (analise_geografica df).2
      ∧ (analise_geografica (analise_demografica df).1).1
          = (analise_demografica (analise_geografica df).1).1)
    ∧ ((analise_demografica (analise_temporal df).1).2 = (analise_demografica df).2
      ∧ (analise_temporal (analise_demografica df).1).2 = (analise_temporal df).2
      ∧ (analise_temporal (analise_demografica df).1).1
          = (analise_demografica (analise_temporal df).1).1)
    ∧ ((analise_demografica (analise_conteudo df).1).2 = (analise_demografica df).2
      ∧ (analise_conteudo (analise_demografica df).1).2 = (analise_conteudo df).2
      ∧ (analise_conteudo (analise_demografica df).1).1
          = (analise_demografica (analise_conteudo df).1).1)
    ∧ ((analise_geografica (analise_temporal df).1).2 = (analise_geografica df).2
      ∧ (analise_temporal (analise_geografica df).1).2 = (analise_temporal df).2
      ∧ (analise_temporal (analise_geografica df).1).1
          = (analise_geografica (analise_temporal df).1).1)
    ∧ ((analise_geografica (analise_conteudo df).1).2 = (analise_geografica df).2
      ∧ (analise_conteudo (analise_geografica df).1).2 = (analise_conteudo df).2
      ∧ (analise_conteudo (analise_geografica df).1).1
          = (analise_geografica (analise_conteudo df).1).1)
    ∧ ((analise_temporal (analise_conteudo df).1).2 = (analise_temporal df).2
      ∧ (analise_conteudo (analise_temporal df).1).2 = (analise_conteudo df).2
      ∧ (analise_conteudo (analise_temporal df).1).1
          = (analise_temporal (analise_conteudo df).1).1) := by
  refine ⟨⟨?_, ?_, ?_⟩, ⟨?_, ?_, ?_⟩, ⟨?_, ?_, ?_⟩, ⟨?_, ?_, ?_⟩, ⟨?_, ?_, ?_⟩,
    ⟨?_, ?_, ?_⟩⟩
  · simp [analise_demografica, analise_geografica, List.map_map, List.filterMap_map,
      Function.comp_def]
  · simp [analise_demografica, analise_geografica, List.map_map, List.filterMap_map,
      Function.comp_def]
  · simp only [analise_demografica, analise_geografica, List.map_map]
    exact List.map_congr_left fun r _ => by cases r; rfl
  · simp [analise_demografica, analise_temporal, List.map_map, List.filterMap_map,
      Function.comp_def]
  · simp [analise_demografica, analise_temporal, List.map_map, List.filterMap_map,
      Function.comp_def]
  · simp only [analise_demografica, analise_temporal, List.map_map]
    exact List.map_congr_left fun r _ => by cases r; rfl
  · rw [analise_conteudo_state]
  · rw [analise_conteudo_output, analise_conteudo_output]
    have : palavrasFiltradas (analise_demografica df).1 = palavrasFiltradas df := by
      simp [palavrasFiltradas, analise_demografica, List.map_map, List.filterMap_map,
        Function.comp_def]
    rw [this]
  · rw [analise_conteudo_state, analise_conteudo_state]
  · simp [analise_geografica, analise_temporal, List.map_map, List.filterMap_map,
      Function.comp_def]
  · simp [analise_geografica, analise_temporal, List.map_map, List.filterMap_map,
      Function.comp_def]
  · simp only [analise_geografica, analise_temporal, List.map_map]
    exact List.map_congr_left fun r _ => by cases r; rfl
  · rw [analise_conteudo_state]
  · rw [analise_conteudo_output, analise_conteudo_output]
    have : palavrasFiltradas (analise_geografica df).1 = palavrasFiltradas df := by
      simp [palavrasFiltradas, analise_geografica, List.map_map, List.filterMap_map,
        Function.comp_def]
    rw [this]
  · rw [analise_conteudo_state, analise_conteudo_state]
  · rw [analise_conteudo_state]
  · rw [analise_conteudo_output, analise_conteudo_output]
    have : palavrasFiltradas (analise_temporal df).1 = palavrasFiltradas df := by
      simp [palavrasFiltradas, analise_temporal, List.map_map, List.filterMap_map,
        Function.comp_def]
    rw [this]
  · rw [analise_conteudo_state, analise_conteudo_state]

/-- C9: running the four aggregators a second time on the DataFrame left
behind by the first run produces exactly the same outputs: the in-place
fillna and date coercion are idempotent, so a rerun sees the same columns. -/
theorem c9_rerun_identical (df : Dataset) :
    (runAll (runAll df).1).2 = (runAll df).2 := by
  simp [runAll, analise_conteudo_state, analise_conteudo_output,
    analise_demografica, analise_geografica, analise_temporal, palavrasFiltradas,
    List.map_map, List.filterMap_map, Function.comp_def]

/-- Two rows dated January and March 1986, with no February row. -/
def dfGap : Dataset :=
  [{ rNull with data := .raw (some "01/01/1986") },
   { rNull with data := .raw (some "15/03/1986") }]

/-- C3, counterexample: `groupby(...).size()` produces only the months that
occur in the data.  With rows in 1986-01 and 1986-03 only, the bucket
sequence jumps from January to March: the interior month 1986-02 does not
appear with count 0, and consecutive buckets differ by two months, refuting
the gap-filling part of the claim. -/
theorem c3_counterexample :
    (analise_temporal dfGap).2.buckets = [((1986, 1), 1), ((1986, 3), 1)]
    ∧ (1986, 2) ∉ ((analise_temporal dfGap).2.buckets).map Prod.fst := by
  decide

theorem groupbyMonth_ne_nil {ms : List (Nat × Nat)} (h : ms ≠ []) :
    groupbyMonth ms ≠ [] := by
  cases ms with
  | nil => exact absurd rfl h
  | cons m ms =>
    intro hnil
    have hlen := congrArg List.length hnil
    unfold groupbyMonth at hlen
    rw [List.length_insertionSort] at hlen
    simp [withCounts, uniquesInOrder] at hlen

/-- C3, amended: the temporal aggregator returns the observed buckets in
strictly increasing chronological order (months with no records are skipped,
so consecutive buckets may differ by more than one month), and whenever at
least one date parses the designated peak bucket exists, is one of the
buckets, and its count is at least every bucket's count. -/
theorem c3_chronological_peak (df : Dataset) :
    ((analise_temporal df).2.buckets).Pairwise (fun p q =>
        p.1.1 < q.1.1 ∨ (p.1.1 = q.1.1 ∧ p.1.2 < q.1.2))
    ∧ (parsedMonths df ≠ [] →
        ∃ pk, (analise_temporal df).2.pico = some pk
          ∧ pk ∈ (analise_temporal df).2.buckets
          ∧ ∀ p ∈ (analise_temporal df).2.buckets, p.2 ≤ pk.2) := by
  simp only [analise_temporal_output]
  constructor
  · have hs : (groupbyMonth (parsedMonths df)).Pairwise MRel := sorted_groupbyMonth _
    have hne : (groupbyMonth (parsedMonths df)).Pairwise (fun p q => p.1 ≠ q.1) :=
      List.pairwise_map.mp (nodup_keys_groupbyMonth _)
    refine (hs.and hne).imp ?_
    intro p q h
    rcases h with ⟨hm, hk⟩
    unfold MRel at hm
    rcases hm with h | ⟨h1, h2⟩
    · exact Or.inl h
    · refine Or.inr ⟨h1, ?_⟩
      rcases Nat.lt_or_ge p.1.2 q.1.2 with hlt | hge
      · exact hlt
      · exact absurd (Prod.ext h1 (le_antisymm h2 hge)) hk
  · intro hne
    cases hb : groupbyMonth (parsedMonths df) with
    | nil => exact absurd hb (groupbyMonth_ne_nil hne)
    | cons b bs =>
      have hsome : idxmax (b :: bs) = some (idxmaxAux b bs) := rfl
      exact ⟨idxmaxAux b bs, hsome, (idxmax_spec hsome).1, (idxmax_spec hsome).2⟩

/-- C3, witness: on the January/March dataset the peak bucket exists and
dominates every bucket count. -/
theorem c3_chronological_peak_witness :
    ∃ pk, (analise_temporal dfGap).2.pico = some pk
      ∧ pk ∈ (analise_temporal dfGap).2.buckets
      ∧ ∀ p ∈ (analise_temporal dfGap).2.buckets, p.2 ≤ pk.2 :=
  (c3_chronological_peak dfGap).2 (by decide)

/-- One row whose DATA value is present but unparseable. -/
def dfBadDate : Dataset := [{ rNull with data := .raw (some "data invalida") }]

/-- C8, counterexample: an unparseable (non-null) date string is excluded
from the temporal buckets, but the Profiler — which runs before the temporal
coercion — sees a non-null string and reports 0 missing values for DATA, so
the unparseable value is never counted in the missing-value statistics. -/
theorem c8_counterexample :
    missingDATA dfBadDate = 0
    ∧ (analise_temporal dfBadDate).2.buckets = []
    ∧ dfBadDate.length = 1 := by
  decide

/-- Whether a cell still holds its as-loaded raw content. -/
def isRawCell : DataCell → Bool
  | .raw _ => true
  | .parsed _ => false

/-- C8, amended: unparseable dates become null under the coercion and are
excluded from the buckets — the bucket counts sum to exactly the number of
rows whose date parses — while the Profiler's missing count for DATA, taken
on the as-loaded column, counts exactly the rows whose raw value was null,
not the present-but-unparseable ones. -/
theorem c8_unparseable_excluded (df : Dataset) :
    sumCounts ((analise_temporal df).2.buckets) = (parsedMonths df).length
    ∧ ((∀ r ∈ df, isRawCell r.data = true) →
        missingDATA df
          = (df.filter (fun r => decide (r.data = DataCell.raw none))).length) := by
  constructor
  · simp only [analise_temporal_output]
    exact sumCounts_groupbyMonth _
  · intro h
    unfold missingDATA
    congr 1
    apply List.filter_congr
    intro r hr
    have hraw := h r hr
    cases hc : r.data with
    | raw o => cases o <;> rfl
    | parsed o =>
      rw [hc] at hraw
      simp [isRawCell] at hraw

/-- C8, witness: on the unparseable-date dataset both amended statements
hold concretely. -/
theorem c8_unparseable_excluded_witness :
    sumCounts ((analise_temporal dfBadDate).2.buckets) = (parsedMonths dfBadDate).length
    ∧ missingDATA dfBadDate
        = (dfBadDate.filter (fun r => decide (r.data = DataCell.raw none))).length :=
  ⟨(c8_unparseable_excluded dfBadDate).1,
   (c8_unparseable_excluded dfBadDate).2 (by decide)⟩

theorem valueCounts_length_pos [BEq α] [LawfulBEq α] {xs : List α} (h : xs ≠ []) :
    0 < (valueCounts xs).length := by
  cases xs with
  | nil => exact absurd rfl h
  | cons x xs =>
    unfold valueCounts
    rw [List.length_insertionSort]
    simp [withCounts, uniquesInOrder]

/-- C5: every token of the content aggregator's output table is a sequence
of at least 4 letters drawn from the lowercase class
`[a-záéíóúâêîôûãõç]`, and is not one of the stop words. -/
theorem c5_content_tokens (df : Dataset) (l : List (String × Nat))
    (hok : (analise_conteudo df).2 = Except.ok l) :
    ∀ p ∈ l, (p.1.data.all isClassChar) = true ∧ 4 ≤ p.1.length ∧ p.1 ∉ stop_words := by
  rw [analise_conteudo_output] at hok
  by_cases h : ((valueCounts (palavrasFiltradas df)).take 15).isEmpty
  · rw [if_pos h] at hok
    exact absurd hok (by simp)
  · rw [if_neg h] at hok
    have hl : l = (valueCounts (palavrasFiltradas df)).take 15 := by
      injection hok with h'
      exact h'.symm
    intro p hp
    rw [hl] at hp
    have hpT : p ∈ valueCounts (palavrasFiltradas df) := List.take_subset _ _ hp
    have hp1 : p.1 ∈ palavrasFiltradas df := (mem_withCounts_elim (mem_valueCounts.mp hpT)).1
    unfold palavrasFiltradas at hp1
    rw [List.mem_filter] at hp1
    rcases hp1 with ⟨htok, hstop⟩
    unfold findTokens at htok
    rcases List.mem_filterMap.mp htok with ⟨run, _, hcond⟩
    by_cases hc : (4 ≤ run.length && run.all isClassChar) = true
    · rw [if_pos hc] at hcond
      injection hcond with hps
      rcases (Bool.and_eq_true _ _).mp hc with ⟨hlen, hclass⟩
      refine ⟨?_, ?_, ?_⟩
      · rw [← hps]
        exact hclass
      · rw [← hps]
        exact of_decide_eq_true hlen
      · intro hmem
        have hcontains : stop_words.contains p.1 = true := by
          rw [← hps] at hmem ⊢
          exact List.elem_eq_true_of_mem hmem
        rw [hcontains] at hstop
        simp at hstop
    · rw [if_neg hc] at hcond
      exact absurd hcond (by simp)

/-- One row of free text with two qualifying words. -/
def dfWords : Dataset :=
  [{ rNull with sugestaoTexto := some "O povo tem direito; direito e povo!" }]

/-- C5, witness: on the concrete text the output contains ("povo", 2) and
the token satisfies all three properties. -/
theorem c5_content_tokens_witness :
    ((("povo", 2) : String × Nat).1.data.all isClassChar) = true
    ∧ 4 ≤ (("povo", 2) : String × Nat).1.length
    ∧ (("povo", 2) : String × Nat).1 ∉ stop_words :=
  c5_content_tokens dfWords [("povo", 2), ("direito", 2)] (by decide) ("povo", 2)
    (by decide)

/-- C10: the content aggregator ends in the `ValueError` of
`zip(*top_palavras)` exactly when no token survives the length and stop-word
filters (for example when the free-text column is entirely null); it returns
normally precisely when at least one counted token exists. -/
theorem c10_empty_tokens_error (df : Dataset) :
    (palavrasFiltradas df = [] →
      (analise_conteudo df).2
        = Except.error "not enough values to unpack (expected 2, got 0)")
    ∧ (palavrasFiltradas df ≠ [] → ∃ l, (analise_conteudo df).2 = Except.ok l) := by
  constructor
  · intro h
    rw [analise_conteudo_output, h]
    simp [valueCounts, withCounts, uniquesInOrder]
  · intro h
    rw [analise_conteudo_output]
    have hlen : 0 < ((valueCounts (palavrasFiltradas df)).take 15).length := by
      rw [List.length_take]
      have := valueCounts_length_pos h
      omega
    have hne : ¬ ((valueCounts (palavrasFiltradas df)).take 15).isEmpty = true := by
      intro hemp
      rw [List.isEmpty_iff] at hemp
      rw [hemp] at hlen
      simp at hlen
    rw [if_neg hne]
    exact ⟨_, rfl⟩

/-- C10, witness: on the all-null dataset the aggregator ends in the modelled
`ValueError`. -/
theorem c10_empty_tokens_error_witness :
    (analise_conteudo dfOneRow).2
      = Except.error "not enough values to unpack (expected 2, got 0)" :=
  (c10_empty_tokens_error dfOneRow).1 (by decide)

/-- C6, counterexample: on a missing input file the failure is reported three
times (two loader messages plus the driver's final message), not once. -/
theorem c6_counterexample :
    (mainRun LoadSource.missingFile).failureMessages.length ≠ 1 := by
  decide

/-- C6, amended: whenever loading fails the loader returns the `None` signal
(exceptions are caught, never re-raised), the pipeline runs no aggregation
and saves no chart, and the failure is reported at least once — in fact both
the loader and the driver print about it. -/
theorem c6_load_failure_halts (src : LoadSource)
    (h : (carregar_dados src).1 = none) :
    (mainRun src).aggregationsRan = false
    ∧ (mainRun src).chartsSaved = []
    ∧ (mainRun src).failureMessages ≠ [] := by
  cases src with
  | missingFile => exact ⟨rfl, rfl, by decide⟩
  | loadError m => exact ⟨rfl, rfl, by simp [mainRun, carregar_dados]⟩
  | ok d => simp [carregar_dados] at h

/-- C6, witness: concrete missing-file run halts with no charts and at least
one failure message. -/
theorem c6_load_failure_halts_witness :
    (mainRun LoadSource.missingFile).aggregationsRan = false
    ∧ (mainRun LoadSource.missingFile).chartsSaved = []
    ∧ (mainRun LoadSource.missingFile).failureMessages ≠ [] :=
  c6_load_failure_halts LoadSource.missingFile (by decide)
